import Mathlib

/-!
# Verification of the serp-backend metered search gateway

Shallow embedding of the credit/billing/search-proxy logic of the
`serp-backend` repository, together with theorems settling the frozen
claims about its specification.

The embedding follows the TypeScript sources:
* `src/services/stripe.ts` — pricing calculator, credit plans, payment
  settlement (`handlePaymentSuccess`, `constructEvent`);
* `src/controllers/billingController.ts` — webhook handler;
* `src/controllers/searchController.ts` — session-authenticated search path;
* `src/controllers/apiController.ts` — API-key search path, instance
  selection, upstream fetch, credit deduction;
* `src/services/searchService.ts` (in `middleware/adminAuth.ts` bundle) —
  per-engine credit cost table.

Monetary amounts are modelled as exact rationals (TypeScript `number`
arithmetic on the values relevant to the claims agrees with exact rational
arithmetic), credits and balances as integers, and the database tables as
association lists keyed by organization id.  Network and Stripe I/O are
modelled as explicit oracle parameters.
-/

namespace SerpBackend

/-- Decidable equality for `Except`, used to evaluate the embedded fallible
functions on concrete inputs. -/
def exceptDecEq {ε α : Type} [DecidableEq ε] [DecidableEq α] :
    (a b : Except ε α) → Decidable (a = b)
  | .error e₁, .error e₂ =>
    if h : e₁ = e₂ then .isTrue (congrArg Except.error h)
    else .isFalse (fun hc => h (Except.error.inj hc))
  | .error _, .ok _ => .isFalse (fun hc => Except.noConfusion hc)
  | .ok _, .error _ => .isFalse (fun hc => Except.noConfusion hc)
  | .ok a₁, .ok a₂ =>
    if h : a₁ = a₂ then .isTrue (congrArg Except.ok h)
    else .isFalse (fun hc => h (Except.ok.inj hc))

instance {ε α : Type} [DecidableEq ε] [DecidableEq α] : DecidableEq (Except ε α) :=
  exceptDecEq

/-! ## Pricing calculator (`StripeService.calculateCredits`, stripe.ts 67–88) -/

/-- Result of a credit purchase: number of credits and discount percent. -/
structure CreditQuote where
  credits : ℤ
  discountPercent : ℤ
  deriving DecidableEq, Repr

/-! ### IEEE binary64 arithmetic

The source computes `Math.floor(amountUsd / rate * 1000)` in JavaScript
numbers, i.e. IEEE binary64 with round-to-nearest-even.  All values involved
are positive, normal and far from overflow, so a double is represented
exactly as a pair `(m, e)` meaning `m * 2^e` with `2^52 ≤ m < 2^53`, and each
operation rounds the exact rational result to 53 significant bits. -/

/-- Fuelled bit length (`128` covers every natural used here). -/
def bitlenAux : ℕ → ℕ → ℕ
  | 0, _ => 0
  | fuel + 1, n => if n = 0 then 0 else bitlenAux fuel (n / 2) + 1

/-- Number of bits of `n` (`0` for `0`). -/
def bitlen (n : ℕ) : ℕ := bitlenAux 128 n

/-- Round the positive rational `a / b` to the nearest binary64 value
(ties to even), returned as `(m, e)` with `2^52 ≤ m < 2^53` and value
`m * 2^e`. -/
def roundToDouble (a b : ℕ) : ℕ × ℤ :=
  let la := bitlen a
  let lb := bitlen b
  let shift : ℤ := 53 - (la : ℤ) + (lb : ℤ)
  let n1 := a * 2 ^ shift.toNat
  let d1 := b * 2 ^ (-shift).toNat
  let q := n1 / d1
  let r := n1 % d1
  if q < 2 ^ 53 then
    let m := if d1 < 2 * r then q + 1 else if 2 * r < d1 then q else q + q % 2
    if m = 2 ^ 53 then (2 ^ 52, -shift + 1) else (m, -shift)
  else
    let q₂ := q / 2
    let m := if q % 2 = 1 ∧ (0 < r ∨ q₂ % 2 = 1) then q₂ + 1 else q₂
    if m = 2 ^ 53 then (2 ^ 52, -shift + 2) else (m, -shift + 1)

/-- Binary64 division of two positive doubles. -/
def floatDiv (x y : ℕ × ℤ) : ℕ × ℤ :=
  let me := roundToDouble x.1 y.1
  (me.1, me.2 + x.2 - y.2)

/-- Binary64 multiplication of a positive double by an exactly representable
natural constant. -/
def floatMulNat (x : ℕ × ℤ) (k : ℕ) : ℕ × ℤ :=
  let me := roundToDouble (x.1 * k) 1
  (me.1, me.2 + x.2)

/-- `Math.floor` of a positive double (exact). -/
def floatFloor (x : ℕ × ℤ) : ℕ :=
  if 0 ≤ x.2 then x.1 * 2 ^ x.2.toNat else x.1 / 2 ^ (-x.2).toNat

/-- `Math.floor((amountUsd / rate) * 1000)` as the program computes it: the
dollar amount is the double nearest to `cents / 100`, the rate literal the
double nearest to `rateNum / rateDen`, and the division, the multiplication
by 1000 and the floor are binary64 operations.  This reproduces the IEEE
result exactly (validated against native doubles on every cent amount of
every tier), and differs from the exact rational floor on some amounts
(e.g. $5.02: 6274 here, 6275 exactly). -/
def jsTierCredits (cents rateNum rateDen : ℕ) : ℕ :=
  floatFloor (floatMulNat (floatDiv (roundToDouble cents 100)
    (roundToDouble rateNum rateDen)) 1000)

/-- `StripeService.calculateCredits` (stripe.ts 67–88): descending if/else
chain over inclusive dollar-amount tiers; amounts that fall in no tier throw.

The source works on a dollar amount `amountUsd`; here the amount is carried
exactly as an integer number of cents (`amountUsdCents = 100 * amountUsd`;
Stripe amounts are integer cents, and the webhook divides by 100).  The
source's tier comparisons `amountUsd >= lo && amountUsd <= hi` run on the
double `amountUsd`; for whole-dollar bounds they agree exactly with the cent
bounds used here, because `cents / 100` rounds to a double within `2^-40` of
the true value while a cent amount differs from a dollar bound by at least
`0.01` unless it equals it (and then `cents / 100` is exact).  The credits of
each branch are the binary64 evaluation `jsTierCredits` of the source's
`Math.floor((amountUsd / rate) * 1000)`. -/
def calculateCredits (amountUsdCents : ℤ) : Except String CreditQuote :=
  if 50000 ≤ amountUsdCents ∧ amountUsdCents ≤ 200000 then
    .ok ⟨(jsTierCredits amountUsdCents.toNat 30 100 : ℤ), 220⟩
  else if 10000 ≤ amountUsdCents ∧ amountUsdCents ≤ 49900 then
    .ok ⟨(jsTierCredits amountUsdCents.toNat 45 100 : ℤ), 78⟩
  else if 3000 ≤ amountUsdCents ∧ amountUsdCents ≤ 9900 then
    .ok ⟨(jsTierCredits amountUsdCents.toNat 65 100 : ℤ), 33⟩
  else if 500 ≤ amountUsdCents ∧ amountUsdCents ≤ 2900 then
    .ok ⟨(jsTierCredits amountUsdCents.toNat 80 100 : ℤ), 0⟩
  else
    .error "Purchase amount must be between $5 and $2000 USD"

/-- One advertised credit plan (stripe.ts `CreditPlan`). -/
structure CreditPlan where
  id : String
  name : String
  credits : ℤ
  priceUsd : ℤ          -- in cents
  discountPercent : ℤ
  deriving DecidableEq, Repr

/-- `CREDIT_PLANS` (stripe.ts 28–61). -/
def CREDIT_PLANS : List CreditPlan :=
  [ ⟨"starter", "Starter", 6250, 500, 0⟩,
    ⟨"standard", "Standard", 46154, 3000, 33⟩,
    ⟨"scale", "Scale", 222222, 10000, 78⟩,
    ⟨"ultimate", "Ultimate", 1666667, 50000, 220⟩ ]

/-- `StripeService.getPricingPlans` (stripe.ts 246–248). -/
def getPricingPlans : List CreditPlan := CREDIT_PLANS

/-! ## Credit ledger rows (`workspace_credits` table, db/schema.ts 217–228) -/

/-- One `workspace_credits` row (without the timestamps, which no claim
mentions). -/
structure WorkspaceCredits where
  balance : ℤ
  totalPurchased : ℤ
  totalUsed : ℤ
  deriving DecidableEq, Repr

/-- One stored `stripe_payment_intents` row (stripe.ts 119–129). -/
structure StoredIntent where
  paymentIntentId : String
  organizationId : String
  amount : ℤ                -- cents
  creditsRequested : ℤ
  discountPercent : ℤ
  status : String
  deriving DecidableEq, Repr

/-- One `credit_purchases` row (stripe.ts 189–196). -/
structure CreditPurchase where
  organizationId : String
  amount : ℤ
  credits : ℤ
  paymentMethod : String
  paymentId : String
  status : String
  deriving DecidableEq, Repr

/-- The billing-relevant database state: payment intents, purchase rows and
per-organization credit balances (association list keyed by organization id). -/
structure BillingState where
  intents : List StoredIntent
  purchases : List CreditPurchase
  credits : List (String × WorkspaceCredits)
  deriving DecidableEq, Repr

/-- `db.select().where(eq(organizationId)).limit(1)`: first credit row of an
organization. -/
def findRow : List (String × WorkspaceCredits) → String → Option WorkspaceCredits
  | [], _ => none
  | (k, v) :: rest, org => if k = org then some v else findRow rest org

/-- `db.update(workspaceCredits).where(eq(organizationId))` with a fixed new
row value: overwrite every row of the organization. -/
def setRow : List (String × WorkspaceCredits) → String → WorkspaceCredits →
    List (String × WorkspaceCredits)
  | [], _, _ => []
  | (k, v) :: rest, org, w =>
    if k = org then (k, w) :: setRow rest org w else (k, v) :: setRow rest org w

/-- The credit update step of `StripeService.handlePaymentSuccess`
(stripe.ts 199–225): if the organization has a credit row, increment
`balance` and `totalPurchased` by the purchased credits; otherwise insert a
fresh row `{balance := credits, totalPurchased := credits, totalUsed := 0}`. -/
def upsertCredits (org : String) (finalCredits : ℤ)
    (credits : List (String × WorkspaceCredits)) : List (String × WorkspaceCredits) :=
  match findRow credits org with
  | some cur =>
      setRow credits org
        { cur with
          balance := cur.balance + finalCredits,
          totalPurchased := cur.totalPurchased + finalCredits }
  | none => credits ++ [(org, ⟨finalCredits, finalCredits, 0⟩)]

/-- `db.update(stripePaymentIntents).set({status}).where(eq(paymentIntentId))`
(stripe.ts 228–234). -/
def setIntentStatus (pid status : String) : List StoredIntent → List StoredIntent
  | [] => []
  | i :: rest =>
    (if i.paymentIntentId = pid then { i with status := status } else i)
      :: setIntentStatus pid status rest

/-- Settlement outcome: freshly applied vs. idempotent no-op. -/
inductive SettlementResult where
  | applied
  | alreadyApplied
  deriving DecidableEq, Repr

/-- `StripeService.handlePaymentSuccess` (stripe.ts 146–241).

`stripeStatus` models `stripe.paymentIntents.retrieve(pid).status`.  The JS
`organizationId || storedIntent.organizationId` /
`creditsOverride || storedIntent.creditsRequested` defaulting is modelled
with `Option.getD` (callers pass `undefined` or a truthy value). -/
def handlePaymentSuccess (stripeStatus pid : String)
    (organizationId : Option String) (creditsOverride : Option ℤ)
    (s : BillingState) : Except String (BillingState × SettlementResult) :=
  if stripeStatus ≠ "succeeded" then
    .error ("Payment intent status is " ++ stripeStatus ++ ", not succeeded")
  else
    match s.intents.find? (fun i => i.paymentIntentId = pid) with
    | none => .error ("Payment intent " ++ pid ++ " not found in database")
    | some storedIntent =>
      let finalOrganizationId := organizationId.getD storedIntent.organizationId
      let finalCredits := creditsOverride.getD storedIntent.creditsRequested
      if s.purchases.any (fun p => p.paymentId = pid) then
        .ok (s, .alreadyApplied)
      else
        let s₁ : BillingState :=
          { s with purchases := s.purchases ++
              [⟨finalOrganizationId, storedIntent.amount, finalCredits,
                "stripe", pid, "completed"⟩] }
        let s₂ : BillingState :=
          { s₁ with credits := upsertCredits finalOrganizationId finalCredits s₁.credits }
        let s₃ : BillingState :=
          { s₂ with intents := setIntentStatus pid stripeStatus s₂.intents }
        .ok (s₃, .applied)

/-! ## Webhook handler (`BillingController.handleWebhook`, billingController.ts 90–142) -/

/-- A parsed Stripe event body, as destructured by the webhook handler. -/
inductive StripeEventData where
  | paymentIntentSucceeded (pid : String) (metadataOrganizationId : Option String)
      (amountCents : ℤ)
  | paymentIntentFailed (pid : String)
  | otherEvent (eventType : String)
  deriving DecidableEq, Repr

/-- HTTP result of the webhook endpoint. -/
inductive WebhookResponse where
  | received                       -- 200 {received: true}
  | badRequest (error : String)    -- 400
  deriving DecidableEq, Repr

/-- `BillingController.handleWebhook` (billingController.ts 90–142).

`signaturePresent` models the `stripe-signature` header check;
`signatureValid` models `StripeService.constructEvent` (stripe.ts 253–265),
which throws on an invalid signature before the event is inspected;
`stripeStatusOf` models `stripe.paymentIntents.retrieve` inside
`handlePaymentSuccess`.  The event's `amount` is in cents; the handler
divides by 100 for `calculateCredits`, which `calculateCredits` here takes
directly in cents. -/
def handleWebhook (signaturePresent signatureValid : Bool)
    (event : StripeEventData) (stripeStatusOf : String → String)
    (s : BillingState) : BillingState × WebhookResponse :=
  if ¬ signaturePresent then
    (s, .badRequest "Missing stripe-signature header")
  else if ¬ signatureValid then
    (s, .badRequest "Invalid webhook signature")
  else
    match event with
    | .paymentIntentSucceeded pid metadataOrganizationId amountCents =>
      match metadataOrganizationId with
      | none => (s, .badRequest "Missing organization ID")
      | some organizationId =>
        match calculateCredits amountCents with
        | .error e => (s, .badRequest e)
        | .ok quote =>
          match handlePaymentSuccess (stripeStatusOf pid) pid
              (some organizationId) (some quote.credits) s with
          | .ok (s', _) => (s', .received)
          | .error e => (s, .badRequest e)
    | .paymentIntentFailed _ => (s, .received)
    | .otherEvent _ => (s, .received)

/-! ## Per-engine credit cost (`SearchService.getCreditCost`, searchService.ts) -/

/-- Model of JS `String.prototype.toLowerCase` (ASCII inputs only are used
by the handlers). -/
def jsToLowerCase (s : String) : String := ⟨s.data.map Char.toLower⟩

/-- The `creditCosts` record literal inside `SearchService.getCreditCost`. -/
def creditCosts : List (String × ℤ) :=
  [("google", 1), ("bing", 2), ("duckduckgo", 2), ("brave", 3)]

/-- `SearchService.getCreditCost(engine)`: lowercase lookup in `creditCosts`,
defaulting to 1 when the engine is not in the table. -/
def getCreditCost (engine : String) : ℤ :=
  (creditCosts.lookup (jsToLowerCase engine)).getD 1

/-! ## Session-authenticated search (`SearchController.search`, searchController.ts 72–342) -/

/-- One `serp_search_results` row (the columns the handler writes). -/
structure UsageRecord where
  searchEngine : Option String
  resultsCount : ℕ
  status : String
  deriving DecidableEq, Repr

/-- A raw result object from the SearXNG JSON payload. -/
structure SearXNGResult where
  title : Option String
  url : Option String
  content : Option String
  snippet : Option String
  engine : Option String
  publishedDate : Option String
  deriving DecidableEq, Repr

/-- The SearXNG response body fields the handler reads. -/
structure SearXNGResponse where
  results : List SearXNGResult
  number_of_results : Option ℕ
  deriving DecidableEq, Repr

/-- A processed result record returned to the client. -/
structure ProcessedResult where
  title : String
  url : String
  snippet : String
  position : ℕ
  engine : String
  published_date : Option String
  deriving DecidableEq, Repr

/-- JS `x || y` for an optional count: `undefined` and `0` are falsy. -/
def jsOrNat (x : Option ℕ) (y : ℕ) : ℕ :=
  match x with
  | some n => if n = 0 then y else n
  | none => y

/-- JS `x || y` for optional strings: `undefined` and `""` are falsy. -/
def jsOrStr (x : Option String) (y : String) : String :=
  match x with
  | some t => if t = "" then y else t
  | none => y

/-- JS `x || null` for an optional string: `''` collapses to `null`. -/
def jsOrNull (x : Option String) : Option String :=
  match x with
  | some t => if t = "" then none else some t
  | none => none

/-- Result mapping of `SearchController.search` (searchController.ts 235–242):
1-based positions, `content || snippet || ''` as snippet, engine defaulting to
the first requested engine and then `'unknown'`.  Part of the unreachable
success branch (see `sessionSearch`); kept as the model of those lines. -/
def processResults (searchEngines : List String) (raw : List SearXNGResult) :
    List ProcessedResult :=
  raw.enum.map (fun p =>
    { title := jsOrStr p.2.title "",
      url := jsOrStr p.2.url "",
      snippet := jsOrStr p.2.content (jsOrStr p.2.snippet ""),
      position := p.1 + 1,
      engine := jsOrStr p.2.engine (jsOrStr searchEngines.head? "unknown"),
      published_date := jsOrNull p.2.publishedDate })

/-- How the `fetch` call of `SearchController.search` settles
(searchController.ts 214–217): the promise either rejects (network error,
abort on the 30s timeout), or resolves to an HTTP response with an `ok` flag
and a body that parses as JSON (`some data`) or does not (`none`). -/
inductive FetchSettle where
  | rejected (message : String)
  | resolved (ok : Bool) (body : Option SearXNGResponse)
  deriving DecidableEq, Repr

/-- Database state touched by `SearchController.search`: the organization's
credit row (`none` when the organization has no `workspace_credits` row), the
appended `serp_search_results` rows, and the API key's request counter. -/
structure SearchState where
  credits : Option WorkspaceCredits
  records : List UsageRecord
  requestCount : ℤ
  deriving DecidableEq, Repr

/-- HTTP result of the session search endpoint.  `ok` carries
`metadata.credits_used`, the processed results and
`metadata.number_of_results`. -/
inductive SearchResponse where
  | badRequest (error : String)       -- 400
  | unauthorized (error : String)     -- 401
  | paymentRequired (error : String)  -- 402
  | ok (creditsUsed : ℤ) (results : List ProcessedResult) (numberOfResults : ℕ)
  | serverError (error : String)      -- 500
  deriving DecidableEq, Repr

/-- `searchEngine` column the success usage record would carry
(searchController.ts 279): the single requested engine, else `'multiple'`.
Part of the unreachable success branch (see `sessionSearch`); kept as the
model of lines 276–283. -/
def sessionEngineLabel : List String → String
  | [e] => e
  | _ => "multiple"

/-- The catch block of `SearchController.search` (searchController.ts
303–336): one error usage record with the raw `engine` body field as its
engine column (line 316), a request-counter bump (322–330), and a 500
response carrying the thrown error's message as `details`. -/
def sessionErrorPath (engine : Option String) (message : String)
    (s : SearchState) : SearchState × SearchResponse :=
  ({ s with
      records := s.records ++ [⟨engine, 0, "error"⟩],
      requestCount := s.requestCount + 1 },
   .serverError message)

/-- `SearchController.search` (searchController.ts 72–342), from the point
where the session has resolved an organization id.

* `q` is the merged `q || query` body field (`some ""` is falsy in JS and
  rejected like a missing query);
* `engines`/`engine` are the body fields of the same names;
* `hasApiKey` abstracts the API-key resolution (116–158): both branches
  either produce a key record or answer 4xx before any credit interaction;
* `settle` is the fetch oracle.

After admission the try block runs
`console.log('SerpAPI response status:', await searchResponse.json())`
(line 220), which consumes the response body (or throws if the body is not
JSON), then throws on a non-2xx status (224–227), and then calls
`searchResponse.json()` a second time (line 229).  Under WHATWG fetch a
consumed body cannot be read again, so that second read always throws
`TypeError` — the success branch (lines 235–301: result processing, credit
deduction, success usage record, 200 response with `credits_used: 1`) is
unreachable, and every admitted request lands in the catch block
(`sessionErrorPath`): one error usage record, no ledger mutation, HTTP 500.
The non-2xx message abbreviates the source's
`SearXNG returned status: statusText` template. -/
def sessionSearch (q : Option String) (engines : Option (List String))
    (engine : Option String) (hasApiKey : Bool) (settle : FetchSettle)
    (s : SearchState) : SearchState × SearchResponse :=
  match q with
  | none => (s, .badRequest "Query parameter (q) is required")
  | some searchQuery =>
    if searchQuery = "" then (s, .badRequest "Query parameter (q) is required")
    else if 500 < searchQuery.length then
      (s, .badRequest "Query too long (max 500 characters)")
    else
      let _searchEngines := engines.getD (match engine with
        | some e => [e]
        | none => ["google"])
      if ¬ hasApiKey then (s, .unauthorized "Invalid or inactive API key")
      else
        match s.credits with
        | none =>
          (s, .paymentRequired "Insufficient credits. Please purchase more credits to continue.")
        | some currentCredits =>
          if currentCredits.balance ≤ 0 then
            (s, .paymentRequired "Insufficient credits. Please purchase more credits to continue.")
          else
            match settle with
            | .rejected message =>
              -- fetch rejected (network error / 30s abort): caught at line 303.
              sessionErrorPath engine message s
            | .resolved ok body =>
              match body with
              | none =>
                -- line 220: `await searchResponse.json()` throws on a
                -- non-JSON body.
                sessionErrorPath engine "Unexpected end of JSON input" s
              | some _searchData =>
                -- line 220 consumed the body.
                if ¬ ok then
                  -- lines 224–227: non-2xx status throws.
                  sessionErrorPath engine "SearXNG returned an error status" s
                else
                  -- line 229: second `searchResponse.json()` on the consumed
                  -- body always throws; lines 235–301 never run.
                  sessionErrorPath engine
                    "Body is unusable: Body has already been read" s

/-! ## API-key search path (`ApiController`, apiController.ts) -/

/-- Model of JS `String.prototype.split(',')`: splits at every comma,
keeping empty fragments (`""` splits to `[""]`). -/
def jsSplitOnCommaAux : List Char → List Char → List String
  | [], acc => [⟨acc.reverse⟩]
  | c :: rest, acc =>
    if c = ',' then ⟨acc.reverse⟩ :: jsSplitOnCommaAux rest []
    else jsSplitOnCommaAux rest (c :: acc)

/-- JS `str.split(',')`. -/
def jsSplitOnComma (s : String) : List String := jsSplitOnCommaAux s.data []

/-- Key set of the `SUPPORTED_ENGINES` object (apiController.ts 48–59). -/
def SUPPORTED_ENGINES : List String :=
  ["google", "duckduckgo", "brave", "startpage", "mojeek", "yahoo", "yep",
   "searx", "qwant"]

/-- `DEFAULT_SEARXNG_INSTANCES` (apiController.ts 62–70). -/
def DEFAULT_SEARXNG_INSTANCES : List String :=
  ["https://searx.stream", "https://search.rhscz.eu", "https://searx.rhscz.eu",
   "https://searx.tiekoetter.com", "https://northboot.xyz",
   "https://search.inetol.net", "https://opnxng.com"]

/-- One `serp_configuration` row (db/schema.ts 196–214), the columns
`getHealthySearxngInstance` reads. -/
structure SerpInstance where
  instanceUrl : String
  isActive : Bool
  healthStatus : String
  priority : ℤ
  deriving DecidableEq, Repr

/-- `orderBy(desc(priority))` followed by `[0]`: the first listed row whose
priority is maximal. -/
def firstByDescPriority : List SerpInstance → Option SerpInstance
  | [] => none
  | i :: rest =>
    match firstByDescPriority rest with
    | none => some i
    | some b => if b.priority > i.priority then some b else some i

/-- `ApiController.getHealthySearxngInstance` (apiController.ts 120–141):
the highest-priority active healthy configured instance, else the first
default instance. -/
def getHealthySearxngInstance (registry : List SerpInstance) : String :=
  let instances := registry.filter
    (fun i => i.isActive && i.healthStatus == "healthy")
  match firstByDescPriority instances with
  | some i => i.instanceUrl
  | none => DEFAULT_SEARXNG_INSTANCES.headD ""

/-- A raw result object of the API SearXNG payload (apiController.ts 81–101). -/
structure ApiRawResult where
  title : String
  url : String
  content : String
  publishedDate : Option String
  engine : Option String
  deriving DecidableEq, Repr

/-- The API SearXNG response body fields `fetchFromSearxng` reads. -/
structure SearxngData where
  results : List ApiRawResult
  number_of_results : ℕ
  deriving DecidableEq, Repr

/-- What one HTTP attempt against a SearXNG instance can produce: a parsed
body, a non-2xx status, or a network/timeout/parse error. -/
inductive NetOutcome where
  | ok (data : SearxngData)
  | httpError (status : ℕ) (statusText : String)
  | netError (message : String)
  deriving DecidableEq, Repr

/-- A processed API result record (apiController.ts 72–79, 205–212). -/
structure SerpResult where
  title : String
  url : String
  snippet : String
  position : ℕ
  engine : Option String
  published_date : Option String
  deriving DecidableEq, Repr

/-- Result mapping of `ApiController.fetchFromSearxng` (apiController.ts
205–212): 1-based positions over the upstream order. -/
def apiProcessResults (data : SearxngData) : List SerpResult :=
  data.results.enum.map (fun p =>
    ({ title := p.2.title, url := p.2.url, snippet := p.2.content,
       position := p.1 + 1, engine := p.2.engine,
       published_date := p.2.publishedDate } : SerpResult))

/-- `ApiController.fetchFromSearxng` (apiController.ts 144–234): one request
against the single selected instance (`instance || getHealthySearxngInstance()`);
any timeout, non-2xx status or fetch error is rethrown as
`Failed to fetch search results: ...`.  `net` is the network oracle. -/
def fetchFromSearxng (net : String → NetOutcome) (registry : List SerpInstance)
    (instanceOverride : Option String) :
    Except String (List SerpResult × SearxngData × String) :=
  let searxngUrl := instanceOverride.getD (getHealthySearxngInstance registry)
  match net searxngUrl with
  | .ok data =>
    .ok (apiProcessResults data, data, searxngUrl)
  | .httpError status statusText =>
    .error ("Failed to fetch search results: Error: SearXNG API error: "
      ++ toString status ++ " " ++ statusText)
  | .netError message =>
    .error ("Failed to fetch search results: " ++ message)

/-- The inline `creditCosts` record of `ApiController.search`
(apiController.ts 352–358), identical to `SearchService.getCreditCost` but
duplicated at this call site. -/
def apiCreditCost (engine : String) : ℤ :=
  ([("google", (1 : ℤ)), ("bing", 2), ("duckduckgo", 2), ("brave", 3)].lookup
    (jsToLowerCase engine)).getD 1

/-- Database state touched by `ApiController.search`. -/
structure ApiState where
  credits : List (String × WorkspaceCredits)
  records : List UsageRecord
  deriving DecidableEq, Repr

/-- `ApiController.deductCredit` (apiController.ts 263–275): an unconditional
`balance = balance - credits, totalUsed = totalUsed + credits` SQL update on
every row of the organization (no balance read, no lower bound). -/
def deductCredit (organizationId : String) (credits : ℤ)
    (rows : List (String × WorkspaceCredits)) : List (String × WorkspaceCredits) :=
  rows.map (fun p =>
    if p.1 = organizationId then
      (p.1, { p.2 with balance := p.2.balance - credits,
                       totalUsed := p.2.totalUsed + credits })
    else p)

/-- `searchEngine` column written by `ApiController.logSearchResult`
(apiController.ts 250–256). -/
def apiEngineLabel : Option (List String) → String
  | some [e] => e
  | _ => "multiple"

/-- HTTP result of `GET /api/search`. -/
inductive ApiResponse where
  | badRequest (error : String) (invalidEngines : List String)  -- 400
  | ok (results : List SerpResult) (instanceUsed : String)
       (creditsUsed : ℤ) (balanceReported : ℤ)                  -- 200
  | serverError (error : String)                                 -- 500
  deriving DecidableEq, Repr

/-- `ApiController.search` (apiController.ts 278–404).

* `q`/`enginesParam` are the query-string parameters;
* `net`/`registry` drive the upstream fetch;
* `creditBalance` is the `(req as any).creditBalance` stashed by the route
  middleware and used only for the reported balance.

The handler first maps `engines` through
`split(',').filter(e => e in SUPPORTED_ENGINES)` (line 302), then validates
the already-filtered list (313–322) — so the invalid-engine rejection can
never fire.  On upstream success it logs a success record, deducts the
primary-engine cost (an empty filtered engines list makes
`primaryEngine.toLowerCase()` throw, which the outer catch turns into a
logged error record and a 500), and reports the cost and the adjusted
middleware balance. -/
def apiSearch (q : Option String) (enginesParam : Option String)
    (net : String → NetOutcome) (registry : List SerpInstance)
    (organizationId : String) (creditBalance : ℤ) (s : ApiState) :
    ApiState × ApiResponse :=
  match q with
  | none => (s, .badRequest "Query parameter \"q\" is required" [])
  | some _query =>
    let engines? : Option (List String) := enginesParam.map
      (fun str => (jsSplitOnComma str).filter (fun e => SUPPORTED_ENGINES.contains e))
    let validationFailure : Option (List String) :=
      match engines? with
      | some es =>
        let invalidEngines := es.filter (fun e => !(SUPPORTED_ENGINES.contains e))
        if invalidEngines ≠ [] then some invalidEngines else none
      | none => none
    match validationFailure with
    | some invalidEngines => (s, .badRequest "Invalid search engines" invalidEngines)
    | none =>
      match fetchFromSearxng net registry none with
      | .error _msg =>
        ({ s with records := s.records ++ [⟨some (apiEngineLabel engines?), 0, "error"⟩] },
         .serverError "Failed to fetch search results")
      | .ok (results, _data, instanceUsed) =>
        let s₁ : ApiState :=
          { s with records := s.records ++
              [⟨some (apiEngineLabel engines?), results.length, "success"⟩] }
        let primaryEngine? : Option String :=
          match engines? with
          | some es => es.head?
          | none => some "google"
        match primaryEngine? with
        | none =>
          -- `searchOptions.engines[0]` is `undefined`; `.toLowerCase()` throws
          -- after the success log, and the catch logs an error record and 500s.
          ({ s₁ with records := s₁.records ++
              [⟨some (apiEngineLabel engines?), 0, "error"⟩] },
           .serverError "Failed to fetch search results")
        | some primaryEngine =>
          let creditsToDeduct := apiCreditCost primaryEngine
          let s₂ : ApiState :=
            { s₁ with credits := deductCredit organizationId creditsToDeduct s₁.credits }
          (s₂, .ok results instanceUsed creditsToDeduct (creditBalance - creditsToDeduct))

/-! ## Ledger operations on one account

The code paths that mutate a `workspace_credits` row, restricted to a single
organization so that sequences of operations can be quantified over.  The
session search path performs no ledger mutation at all — its deduction code
(searchController.ts 245–262) sits in the unreachable success branch (see
`sessionSearch`) — so the mutating operations are the settlement top-up and
the API-path debit. -/

/-- The credit top-up step of `StripeService.handlePaymentSuccess`
(stripe.ts 205–225) on one organization's row: increment `balance` and
`totalPurchased` when the row exists, else insert
`{balance := credits, totalPurchased := credits, totalUsed := 0}`. -/
def topUpRow (finalCredits : ℤ) : Option WorkspaceCredits → WorkspaceCredits
  | some cur =>
    { cur with
      balance := cur.balance + finalCredits,
      totalPurchased := cur.totalPurchased + finalCredits }
  | none => ⟨finalCredits, finalCredits, 0⟩

/-- One completed ledger-mutating operation on an account. -/
inductive LedgerOp where
  /-- A settled payment of `credits` credits (stripe.ts 205–225). -/
  | topUp (credits : ℤ)
  /-- A successful API-key search with primary engine `engine`
  (apiController.ts 263–275, 350–359; the API path performs no balance
  check at all before deducting). -/
  | apiSearchDebit (engine : String)
  deriving DecidableEq, Repr

/-- Effect of one operation on the account's credit row.  An API debit
against an account with no credit row updates nothing (the SQL update
matches no row). -/
def applyLedgerOp (row : Option WorkspaceCredits) : LedgerOp → Option WorkspaceCredits
  | .topUp c => some (topUpRow c row)
  | .apiSearchDebit e =>
    match row with
    | none => none
    | some cur => some
        { cur with
          balance := cur.balance - apiCreditCost e,
          totalUsed := cur.totalUsed + apiCreditCost e }

/-- Run a sequence of ledger operations from the account's initial state
(no `workspace_credits` row). -/
def runLedgerOps (ops : List LedgerOp) : Option WorkspaceCredits :=
  ops.foldl applyLedgerOp none

/-- `balance` of an organization's first credit row, `0` when absent. -/
def balanceOf (s : BillingState) (org : String) : ℤ :=
  ((findRow s.credits org).map WorkspaceCredits.balance).getD 0

/-! ## Concrete fixtures used to evaluate the claims -/

/-- A realistic operation sequence: a $5 purchase (6250 credits), then 6251
successful API-key google searches (cost 1 each) — one more than the balance
covers; the API path never checks the balance, so the last debit overdraws. -/
def overdraftOps : List LedgerOp :=
  .topUp 6250 :: List.replicate 6251 (.apiSearchDebit "google")

/-- Billing state with one unsettled payment intent and no purchases. -/
def billingBefore : BillingState :=
  ⟨[⟨"pi_1", "org_1", 500, 6250, 0, "requires_payment_method"⟩], [], []⟩

/-- `billingBefore` after the first successful settlement of `pi_1`. -/
def billingAfter : BillingState :=
  ⟨[⟨"pi_1", "org_1", 500, 6250, 0, "succeeded"⟩],
   [⟨"org_1", 500, 6250, "stripe", "pi_1", "completed"⟩],
   [("org_1", ⟨6250, 6250, 0⟩)]⟩

/-- Three active healthy configured instances in descending priority. -/
def failoverRegistry : List SerpInstance :=
  [⟨"https://instance-a", true, "healthy", 10⟩,
   ⟨"https://instance-b", true, "healthy", 5⟩,
   ⟨"https://instance-c", true, "healthy", 1⟩]

/-- A network where the highest-priority instance times out and every other
instance answers with an empty, well-formed result page. -/
def failoverNet : String → NetOutcome := fun url =>
  if url = "https://instance-a" then .netError "This operation was aborted"
  else .ok ⟨[], 0⟩

/-- A network where every instance answers with an empty, well-formed result
page. -/
def allOkNet : String → NetOutcome := fun _ => .ok ⟨[], 0⟩

/-! # Theorems settling the claims -/

/-! ## Helper lemmas about the session search handler -/

/-- Characterization of every admitted session search: with a valid query, an
available API key and a present credit row with positive balance, the request
always takes the catch path — one error usage record, a request-counter bump,
a 500 response, and no ledger mutation — whatever the upstream fetch does. -/
theorem sessionSearch_admitted_eq (query : String) (engines : Option (List String))
    (engineParam : Option String) (settle : FetchSettle) (s : SearchState)
    (cur : WorkspaceCredits) (hq : query ≠ "") (hlen : query.length ≤ 500)
    (hcur : s.credits = some cur) (hbal : 0 < cur.balance) :
    ∃ message, sessionSearch (some query) engines engineParam true settle s =
      ({ s with records := s.records ++ [⟨engineParam, 0, "error"⟩],
                requestCount := s.requestCount + 1 },
       .serverError message) := by
  cases settle with
  | rejected message =>
    refine ⟨message, ?_⟩
    unfold sessionSearch sessionErrorPath
    simp [hq, hcur, Nat.not_lt.mpr hlen, not_le.mpr hbal]
  | resolved ok body =>
    cases body with
    | none =>
      refine ⟨"Unexpected end of JSON input", ?_⟩
      unfold sessionSearch sessionErrorPath
      simp [hq, hcur, Nat.not_lt.mpr hlen, not_le.mpr hbal]
    | some data =>
      cases ok with
      | false =>
        refine ⟨"SearXNG returned an error status", ?_⟩
        unfold sessionSearch sessionErrorPath
        simp [hq, hcur, Nat.not_lt.mpr hlen, not_le.mpr hbal]
      | true =>
        refine ⟨"Body is unusable: Body has already been read", ?_⟩
        unfold sessionSearch sessionErrorPath
        simp [hq, hcur, Nat.not_lt.mpr hlen, not_le.mpr hbal]

/-- The session search handler never changes the stored credit row, on any
input: every path either rejects before touching the ledger or lands in the
catch block, the deduction code being unreachable. -/
theorem sessionSearch_credits_unchanged (q : Option String)
    (engines : Option (List String)) (engineParam : Option String)
    (hasApiKey : Bool) (settle : FetchSettle) (s : SearchState) :
    (sessionSearch q engines engineParam hasApiKey settle s).1.credits = s.credits := by
  unfold sessionSearch sessionErrorPath
  repeat' split
  all_goals rfl

/-- C4, counterexample: the amount $29.50 (2950 cents) lies inside
[$5, $2000] yet `calculateCredits` rejects it, refuting that `InvalidAmount`
is produced exactly for amounts outside [$5, $2000]. -/
theorem calculateCredits_intertier_gap_cex :
    calculateCredits 2950 = .error "Purchase amount must be between $5 and $2000 USD"
    ∧ (500 : ℤ) ≤ 2950 ∧ (2950 : ℤ) ≤ 200000 := by decide

/-- C4, amended: `calculateCredits` selects the claimed tier boundaries
(inclusive, evaluated in descending order) and discounts, with credits equal
to the binary64 evaluation of `Math.floor(amount / rate * 1000)` — which
differs from the exact rational floor on some amounts, e.g. $5.02 gives
6274 where the exact floor is 6275 — and yields `InvalidAmount` exactly for
amounts outside [$5, $2000] or strictly inside one of the inter-tier gaps
($29, $30), ($99, $100), ($499, $500); the `exactly outside [$5, $2000]`
reading of the claim holds only on whole-dollar amounts. -/
theorem calculateCredits_tier_table (c : ℤ) :
    (50000 ≤ c → c ≤ 200000 →
      calculateCredits c = .ok ⟨(jsTierCredits c.toNat 30 100 : ℤ), 220⟩)
    ∧ (10000 ≤ c → c ≤ 49900 →
      calculateCredits c = .ok ⟨(jsTierCredits c.toNat 45 100 : ℤ), 78⟩)
    ∧ (3000 ≤ c → c ≤ 9900 →
      calculateCredits c = .ok ⟨(jsTierCredits c.toNat 65 100 : ℤ), 33⟩)
    ∧ (500 ≤ c → c ≤ 2900 →
      calculateCredits c = .ok ⟨(jsTierCredits c.toNat 80 100 : ℤ), 0⟩)
    ∧ (calculateCredits c = .error "Purchase amount must be between $5 and $2000 USD"
        ↔ c < 500 ∨ 200000 < c ∨ (2900 < c ∧ c < 3000) ∨ (9900 < c ∧ c < 10000)
          ∨ (49900 < c ∧ c < 50000))
    ∧ jsTierCredits 502 80 100 = 6274 ∧ Int.fdiv (1000 * 502) 80 = 6275 := by
  refine ⟨?_, ?_, ?_, ?_, ?_, by decide, by decide⟩ <;>
    · unfold calculateCredits
      first
      | (refine fun h₁ h₂ => ?_; split_ifs <;> simp_all <;> omega)
      | (split_ifs <;> simp_all <;> omega)

/-- C4, witness: the amended tier theorem evaluated at $500 (50000 cents). -/
theorem calculateCredits_tier_table_witness :
    (50000 : ℤ) ≤ 50000 ∧ (50000 : ℤ) ≤ 200000
    ∧ calculateCredits 50000 = .ok ⟨(jsTierCredits (50000 : ℤ).toNat 30 100 : ℤ), 220⟩ :=
  ⟨by decide, by decide,
   (calculateCredits_tier_table 50000).1 (by decide) (by decide)⟩

/-- C9, counterexample: the advertised Standard plan states 46154 credits for
$30, but `calculateCredits` on $30 (3000 cents) yields 46153, so the quoted
plan does not equal the calculator's output at that price point. -/
theorem pricingPlans_standard_mismatch_cex :
    getPricingPlans.find? (fun p => p.id = "standard")
      = some ⟨"standard", "Standard", 46154, 3000, 33⟩
    ∧ calculateCredits 3000 = .ok ⟨46153, 33⟩
    ∧ (46154 : ℤ) ≠ 46153 := by decide

/-- C9, amended: the quoted plans agree with `calculateCredits` at the
Starter ($5) and Scale ($100) price points (credits and discount), and the
discounts agree at all four price points, but the Standard ($30) and
Ultimate ($500) plans each state one more credit than the calculator
produces (46154 vs 46153 and 1666667 vs 1666666). -/
theorem pricingPlans_vs_calculator :
    getPricingPlans = CREDIT_PLANS
    ∧ calculateCredits 500 = .ok ⟨6250, 0⟩
    ∧ getPricingPlans.find? (fun p => p.id = "starter")
        = some ⟨"starter", "Starter", 6250, 500, 0⟩
    ∧ calculateCredits 10000 = .ok ⟨222222, 78⟩
    ∧ getPricingPlans.find? (fun p => p.id = "scale")
        = some ⟨"scale", "Scale", 222222, 10000, 78⟩
    ∧ calculateCredits 3000 = .ok ⟨46153, 33⟩
    ∧ getPricingPlans.find? (fun p => p.id = "standard")
        = some ⟨"standard", "Standard", 46153 + 1, 3000, 33⟩
    ∧ calculateCredits 50000 = .ok ⟨1666666, 220⟩
    ∧ getPricingPlans.find? (fun p => p.id = "ultimate")
        = some ⟨"ultimate", "Ultimate", 1666666 + 1, 50000, 220⟩ := by decide

/-- C8, failing-input evaluation: a request naming the unsupported engine
`bing` alongside `google` is not rejected: the pre-filter on line 302 of
apiController.ts silently drops `bing`, the upstream call is made, one credit
is debited and the response is a 200 — the invalid-engine 400 branch
(lines 313–321) can never fire because it validates the already-filtered
list. -/
theorem apiSearch_unsupported_engine_not_rejected :
    SUPPORTED_ENGINES.contains "bing" = false
    ∧ apiSearch (some "javascript") (some "bing,google") allOkNet [] "org_1" 1000
        ⟨[("org_1", ⟨10, 10, 0⟩)], []⟩ =
      (⟨[("org_1", ⟨9, 10, 1⟩)], [⟨some "google", 0, "success"⟩]⟩,
       .ok [] "https://searx.stream" 1 999) := by decide

/-- C5: the payment webhook mutates no billing state when the
`stripe-signature` header is missing or its verification fails (the state
before and after are equal, so no purchase row, credit balance or
payment-intent record changes), and a verified `payment_intent.payment_failed`
event likewise leaves the entire billing state unchanged. -/
theorem handleWebhook_verification_gates_state :
    ∀ (present valid : Bool) (event : StripeEventData)
      (stripeStatusOf : String → String) (s : BillingState) (pid : String),
      handleWebhook true false event stripeStatusOf s
        = (s, .badRequest "Invalid webhook signature")
      ∧ (handleWebhook present false event stripeStatusOf s).1 = s
      ∧ (handleWebhook present valid (.paymentIntentFailed pid) stripeStatusOf s).1 = s := by
  intro present valid event stripeStatusOf s pid
  refine ⟨?_, ?_, ?_⟩ <;> cases present <;> cases valid <;>
    simp [handleWebhook]

/-- C1, counterexample: with a stored balance of 1 credit and a duckduckgo
search costing 2 credits, the request is not rejected with
`InsufficientCredits` although `balance < cost` — it is admitted and then
500s from the double body read, the stored row unchanged; and with a balance
of 100 and a google search costing 1, `balance ≥ cost` yet no debit is
applied.  So the debit is applied neither exactly when, nor ever when,
`balance ≥ cost`, and rejection is not governed by `balance < cost`. -/
theorem sessionSearch_cost_blind_admission_cex :
    (sessionSearch (some "q") (some ["duckduckgo"]) none true
        (.resolved true (some ⟨[], none⟩)) ⟨some ⟨1, 1, 0⟩, [], 0⟩ =
      (⟨some ⟨1, 1, 0⟩, [⟨none, 0, "error"⟩], 1⟩,
       .serverError "Body is unusable: Body has already been read"))
    ∧ (1 : ℤ) < getCreditCost "duckduckgo"
    ∧ (sessionSearch (some "q") (some ["google"]) none true
        (.resolved true (some ⟨[], none⟩)) ⟨some ⟨100, 100, 0⟩, [], 0⟩).1.credits
        = some ⟨100, 100, 0⟩
    ∧ getCreditCost "google" ≤ (100 : ℤ) := by decide

/-- C1, amended: on the session search path with a valid query and an
available API key, the request is rejected with `InsufficientCredits` (402)
exactly when the account has no credit row or its stored balance is ≤ 0 —
the admission check never compares the balance against the request's cost —
and no debit is ever applied: the stored credit row is unchanged by every
request, the deduction code sitting in the success branch made unreachable
by the double body read (searchController.ts 220/229). -/
theorem sessionSearch_admission (query : String) (engines : List String)
    (engineParam : Option String) (settle : FetchSettle) (s : SearchState)
    (hq : query ≠ "") (hlen : query.length ≤ 500) :
    ((sessionSearch (some query) (some engines) engineParam true settle s).2 =
        .paymentRequired "Insufficient credits. Please purchase more credits to continue."
      ↔ ∀ cur, s.credits = some cur → cur.balance ≤ 0)
    ∧ ∀ (q : Option String) (es : Option (List String)) (ep : Option String)
        (hasApiKey : Bool) (st : FetchSettle) (s' : SearchState),
        (sessionSearch q es ep hasApiKey st s').1.credits = s'.credits := by
  constructor
  · cases hcred : s.credits with
    | none =>
      unfold sessionSearch
      simp [hq, hcred, Nat.not_lt.mpr hlen]
    | some cur =>
      by_cases hb : cur.balance ≤ 0
      · unfold sessionSearch
        simp [hq, hcred, hb, Nat.not_lt.mpr hlen]
      · obtain ⟨message, heq⟩ := sessionSearch_admitted_eq query (some engines)
          engineParam settle s cur hq hlen hcred (by omega)
        rw [heq]
        constructor
        · intro hcontra
          cases hcontra
        · intro hall
          exact absurd (hall cur rfl) hb
  · exact fun q es ep hasApiKey st s' =>
      sessionSearch_credits_unchanged q es ep hasApiKey st s'

/-- C1, witness: the amended theorem applied at balance 1 with a duckduckgo
request (cost 2): the request is admitted and the stored row is unchanged. -/
theorem sessionSearch_admission_witness :
    (sessionSearch (some "q") (some ["duckduckgo"]) none true
        (.resolved true (some ⟨[], none⟩)) ⟨some ⟨1, 1, 0⟩, [], 0⟩).1.credits =
      some ⟨1, 1, 0⟩ :=
  (sessionSearch_admission "q" ["duckduckgo"] none
      (.resolved true (some ⟨[], none⟩)) ⟨some ⟨1, 1, 0⟩, [], 0⟩
      (by decide) (by decide)).2
    (some "q") (some ["duckduckgo"]) none true
    (.resolved true (some ⟨[], none⟩)) ⟨some ⟨1, 1, 0⟩, [], 0⟩

/-- C6, failing-input evaluation: an admitted session search whose upstream
attempt succeeds (2xx status, valid JSON body) does not produce the claimed
success side effects.  The second `searchResponse.json()` at
searchController.ts 229 throws on the body already consumed by the debug log
at line 220, so the handler writes one usage record with status `error`,
performs no ledger debit, and answers 500 — instead of exactly one success
record and a debit of the engine-specific cost. -/
theorem sessionSearch_success_attempt_error_path :
    sessionSearch (some "javascript") (some ["google", "duckduckgo"]) none true
        (.resolved true (some ⟨[], none⟩)) ⟨some ⟨10, 10, 0⟩, [], 0⟩ =
      (⟨some ⟨10, 10, 0⟩, [⟨none, 0, "error"⟩], 1⟩,
       .serverError "Body is unusable: Body has already been read") := by decide

/-- C10, counterexample: an admitted duckduckgo session search with a clean
upstream success produces no successful response (it 500s from the double
body read) and debits nothing — the amount debited is 0, not the
engine-specific cost 2 — so the claimed reported-1-versus-debited-cost
divergence never occurs in the program. -/
theorem sessionSearch_no_success_response_cex :
    (sessionSearch (some "q") (some ["duckduckgo"]) none true
        (.resolved true (some ⟨[], none⟩)) ⟨some ⟨5, 5, 0⟩, [], 0⟩ =
      (⟨some ⟨5, 5, 0⟩, [⟨none, 0, "error"⟩], 1⟩,
       .serverError "Body is unusable: Body has already been read"))
    ∧ getCreditCost "duckduckgo" = 2 ∧ (0 : ℤ) ≠ 2 := by decide

/-- C10, amended: the session-authenticated search path never produces a
successful response: the 200 response carrying the hard-coded
`credits_used: 1` metadata lives in the branch made unreachable by the
double body read, so no request is ever answered with `ok` (and the stored
credit row is unchanged on every path), leaving no reported-versus-debited
divergence to observe. -/
theorem sessionSearch_never_ok (q : Option String) (engines : Option (List String))
    (engineParam : Option String) (hasApiKey : Bool) (settle : FetchSettle)
    (s : SearchState) (creditsUsed : ℤ) (results : List ProcessedResult)
    (numberOfResults : ℕ) :
    (sessionSearch q engines engineParam hasApiKey settle s).2 ≠
      .ok creditsUsed results numberOfResults := by
  unfold sessionSearch sessionErrorPath
  repeat' split
  all_goals simp

/-! ## Helper lemmas about the ledger operations -/

/-- One ledger operation preserves `balance = totalPurchased − totalUsed`. -/
theorem applyLedgerOp_preserves_eq (o : Option WorkspaceCredits) (op : LedgerOp)
    (h : ∀ r, o = some r → r.balance = r.totalPurchased - r.totalUsed) :
    ∀ r, applyLedgerOp o op = some r → r.balance = r.totalPurchased - r.totalUsed := by
  intro r hr
  cases op with
  | topUp c =>
    cases o with
    | none =>
      simp [applyLedgerOp, topUpRow] at hr
      subst hr; simp
    | some cur =>
      have hc := h cur rfl
      simp [applyLedgerOp, topUpRow] at hr
      subst hr; simp; omega
  | apiSearchDebit e =>
    cases o with
    | none => simp [applyLedgerOp] at hr
    | some cur =>
      have hc := h cur rfl
      simp [applyLedgerOp] at hr
      subst hr; simp; omega

/-- Folding any ledger-operation sequence preserves
`balance = totalPurchased − totalUsed`. -/
theorem foldl_ledgerOps_preserves_eq (ops : List LedgerOp) :
    ∀ (o : Option WorkspaceCredits),
      (∀ r, o = some r → r.balance = r.totalPurchased - r.totalUsed) →
      ∀ r, ops.foldl applyLedgerOp o = some r →
        r.balance = r.totalPurchased - r.totalUsed := by
  induction ops with
  | nil =>
    intro o ho r hr
    simp at hr
    exact ho r (by rw [hr])
  | cons op rest ih =>
    intro o ho r hr
    rw [List.foldl_cons] at hr
    exact ih (applyLedgerOp o op) (applyLedgerOp_preserves_eq o op ho) r hr

/-- Running `n` successful API-key google searches (cost 1) debits exactly
`n` and raises `totalUsed` by `n`, with no admission condition: the API path
never reads the balance before deducting. -/
theorem foldl_api_google_debits (n : ℕ) : ∀ (b p u : ℤ),
    List.foldl applyLedgerOp (some ⟨b, p, u⟩)
      (List.replicate n (.apiSearchDebit "google")) = some ⟨b - n, p, u + n⟩ := by
  induction n with
  | zero => intro b p u; simp
  | succ n ih =>
    intro b p u
    rw [List.replicate_succ, List.foldl_cons]
    have hg : apiCreditCost "google" = 1 := by decide
    have hstep : applyLedgerOp (some ⟨b, p, u⟩) (.apiSearchDebit "google")
        = some ⟨b - 1, p, u + 1⟩ := by
      simp [applyLedgerOp, hg]
    rw [hstep, ih (b - 1) p (u + 1)]
    have h1 : b - 1 - (n : ℤ) = b - ((n + 1 : ℕ) : ℤ) := by push_cast; ring
    have h2 : u + 1 + (n : ℤ) = u + ((n + 1 : ℕ) : ℤ) := by push_cast; ring
    rw [h1, h2]

/-- C2, amended: after any sequence of top-up and API-path debit operations,
a stored credit row always satisfies
`balance = totalPurchased − totalUsed`; nonnegativity of the balance is not
an invariant (see the counterexample theorem for this claim). -/
theorem runLedgerOps_balance_eq (ops : List LedgerOp) (row : WorkspaceCredits)
    (h : runLedgerOps ops = some row) :
    row.balance = row.totalPurchased - row.totalUsed :=
  foldl_ledgerOps_preserves_eq ops none (fun r hr => by cases hr) row h

/-- C2, witness: the accounting identity evaluated after a single $5 top-up. -/
theorem runLedgerOps_balance_eq_witness :
    runLedgerOps [.topUp 6250] = some ⟨6250, 6250, 0⟩
    ∧ (6250 : ℤ) = 6250 - 0 :=
  ⟨by decide, runLedgerOps_balance_eq [.topUp 6250] ⟨6250, 6250, 0⟩ (by decide)⟩

/-- C2, counterexample: the realistic operation sequence `overdraftOps` —
one $5 top-up (6250 credits) followed by 6251 successful API-key google
searches, the API path deducting without any balance check — ends in a
committed state with `balance = −1 < 0`, refuting `balance ≥ 0` (the
identity `−1 = 6250 − 6251` still holds). -/
theorem runLedgerOps_negative_balance_cex :
    runLedgerOps overdraftOps = some ⟨-1, 6250, 6251⟩ ∧ ((-1 : ℤ) < 0) := by
  refine ⟨?_, by decide⟩
  unfold runLedgerOps overdraftOps
  rw [List.foldl_cons]
  have h0 : applyLedgerOp none (.topUp 6250) = some ⟨6250, 6250, 0⟩ := by decide
  rw [h0, foldl_api_google_debits 6251 6250 6250 0]
  norm_num

/-! ## Helper lemmas about the billing tables -/

/-- Appending a fresh row for an organization with no row makes it findable. -/
theorem findRow_append_of_none (l : List (String × WorkspaceCredits)) (org : String)
    (w : WorkspaceCredits) (h : findRow l org = none) :
    findRow (l ++ [(org, w)]) org = some w := by
  induction l with
  | nil => simp [findRow]
  | cons kv rest ih =>
    obtain ⟨k, v⟩ := kv
    by_cases hk : k = org
    · simp [findRow, hk] at h
    · simp only [findRow, hk, List.cons_append, if_false] at h ⊢
      exact ih h

/-- Overwriting an organization's rows makes the new value findable. -/
theorem findRow_setRow_of_some (l : List (String × WorkspaceCredits)) (org : String)
    (w cur : WorkspaceCredits) (h : findRow l org = some cur) :
    findRow (setRow l org w) org = some w := by
  induction l with
  | nil => simp [findRow] at h
  | cons kv rest ih =>
    obtain ⟨k, v⟩ := kv
    by_cases hk : k = org
    · simp [findRow, setRow, hk]
    · simp only [findRow, setRow, hk, if_false] at h ⊢
      exact ih h

/-- The settlement top-up adds exactly the purchased credits to the
organization's balance (both when a row exists and when one is created). -/
theorem findRow_upsertCredits (org : String) (c : ℤ)
    (l : List (String × WorkspaceCredits)) :
    ((findRow (upsertCredits org c l) org).map WorkspaceCredits.balance).getD 0
      = ((findRow l org).map WorkspaceCredits.balance).getD 0 + c := by
  unfold upsertCredits
  cases hf : findRow l org with
  | none => rw [findRow_append_of_none l org _ hf]; simp
  | some cur => rw [findRow_setRow_of_some l org _ cur hf]; simp

/-- Updating the status of the rows matching `pid` commutes with looking the
first of them up. -/
theorem find?_setIntentStatus (pid st : String) (l : List StoredIntent) :
    (setIntentStatus pid st l).find? (fun i => i.paymentIntentId = pid)
      = (l.find? (fun i => i.paymentIntentId = pid)).map
          (fun i => { i with status := st }) := by
  induction l with
  | nil => rfl
  | cons i rest ih =>
    by_cases h : i.paymentIntentId = pid
    · simp [setIntentStatus, List.find?_cons, h]
    · simp [setIntentStatus, List.find?_cons, h, ih]

/-- C3: payment settlement is idempotent per payment-intent id — a first
successful application adds exactly one `credit_purchases` row for `pid` and
adds the purchased credits to the organization's balance exactly once, and
re-invoking the handler on the resulting state returns `AlreadyApplied`
and leaves the state unchanged. -/
theorem handlePaymentSuccess_idempotent (stripeStatus pid : String)
    (organizationId : Option String) (creditsOverride : Option ℤ)
    (s s' : BillingState)
    (h : handlePaymentSuccess stripeStatus pid organizationId creditsOverride s
          = .ok (s', .applied)) :
    s'.purchases.countP (fun p => p.paymentId = pid)
        = s.purchases.countP (fun p => p.paymentId = pid) + 1
    ∧ handlePaymentSuccess stripeStatus pid organizationId creditsOverride s'
        = .ok (s', .alreadyApplied)
    ∧ ∀ stored, s.intents.find? (fun i => i.paymentIntentId = pid) = some stored →
        balanceOf s' (organizationId.getD stored.organizationId)
          = balanceOf s (organizationId.getD stored.organizationId)
            + creditsOverride.getD stored.creditsRequested := by
  simp only [handlePaymentSuccess] at h
  split at h
  · cases h
  next hst =>
  split at h
  next hfind => cases h
  next stored hfind =>
  by_cases hany : (s.purchases.any fun p => p.paymentId = pid) = true
  · rw [if_pos hany] at h
    simp at h
  · rw [if_neg hany] at h
    simp only [Except.ok.injEq, Prod.mk.injEq, and_true] at h
    subst h
    refine ⟨?_, ?_, ?_⟩
    · simp [List.countP_append, List.countP_cons]
    · simp only [handlePaymentSuccess, if_neg hst]
      rw [find?_setIntentStatus, hfind]
      have hany' : (s.purchases ++
          [(⟨organizationId.getD stored.organizationId, stored.amount,
             creditsOverride.getD stored.creditsRequested, "stripe", pid,
             "completed"⟩ : CreditPurchase)]).any
            (fun p => p.paymentId = pid) = true := by
        simp [List.any_append]
      simp [hany']
    · intro stored' hstored'
      rw [hfind] at hstored'
      cases hstored'
      unfold balanceOf
      exact findRow_upsertCredits _ _ s.credits

/-- C3, witness: the idempotency theorem evaluated on the concrete billing
fixture — a second delivery of `pi_1` is a no-op returning `AlreadyApplied`. -/
theorem handlePaymentSuccess_idempotent_witness :
    billingAfter.purchases.countP (fun p => p.paymentId = "pi_1")
        = billingBefore.purchases.countP (fun p => p.paymentId = "pi_1") + 1
    ∧ handlePaymentSuccess "succeeded" "pi_1" none none billingAfter
        = .ok (billingAfter, .alreadyApplied) := by
  have h := handlePaymentSuccess_idempotent "succeeded" "pi_1" none none
    billingBefore billingAfter (by decide)
  exact ⟨h.1, h.2.1⟩

/-! ## Single-attempt behaviour of the API search path -/

/-- C7, amended: the API search path makes exactly one upstream attempt,
against the single instance selected by `getHealthySearxngInstance` (the
highest-priority active healthy configured instance, else the first default
instance): if that one attempt times out or returns a non-2xx status the
caller immediately receives the hard failure — no further candidate is tried —
and if it succeeds the request completes with one debit. -/
theorem apiSearch_single_attempt (net : String → NetOutcome)
    (registry : List SerpInstance) (query organizationId : String)
    (creditBalance : ℤ) (s : ApiState) :
    (∀ message, net (getHealthySearxngInstance registry) = .netError message →
      apiSearch (some query) none net registry organizationId creditBalance s =
        ({ s with records := s.records ++ [⟨some "multiple", 0, "error"⟩] },
         .serverError "Failed to fetch search results"))
    ∧ (∀ status statusText,
        net (getHealthySearxngInstance registry) = .httpError status statusText →
      apiSearch (some query) none net registry organizationId creditBalance s =
        ({ s with records := s.records ++ [⟨some "multiple", 0, "error"⟩] },
         .serverError "Failed to fetch search results"))
    ∧ (∀ data, net (getHealthySearxngInstance registry) = .ok data →
      apiSearch (some query) none net registry organizationId creditBalance s =
        ({ s with
            credits := deductCredit organizationId 1 s.credits,
            records := s.records ++
              [⟨some "multiple", (apiProcessResults data).length, "success"⟩] },
         .ok (apiProcessResults data) (getHealthySearxngInstance registry) 1
           (creditBalance - 1))) := by
  have hcost : apiCreditCost "google" = 1 := by decide
  refine ⟨fun message h => ?_, fun status statusText h => ?_, fun data h => ?_⟩ <;>
    · unfold apiSearch fetchFromSearxng
      simp [h, apiEngineLabel, hcost]

/-- C7, witness: the single-attempt theorem evaluated on the failover
fixture, where the selected highest-priority instance times out. -/
theorem apiSearch_single_attempt_witness :
    apiSearch (some "x") none failoverNet failoverRegistry "org_1" 1000 ⟨[], []⟩ =
      (⟨[], [⟨some "multiple", 0, "error"⟩]⟩,
       .serverError "Failed to fetch search results") :=
  (apiSearch_single_attempt failoverNet failoverRegistry "x" "org_1" 1000
      ⟨[], []⟩).1 "This operation was aborted" (by decide)

/-- C7, counterexample: three active healthy candidates are configured; the
single selected (highest-priority) instance fails, and the caller immediately
receives the hard `UpstreamFailure` even though `instance-b` would have
answered successfully — no second candidate is attempted. -/
theorem apiSearch_no_failover_cex :
    apiSearch (some "x") none failoverNet failoverRegistry "org_1" 1000
        ⟨[("org_1", ⟨10, 10, 0⟩)], []⟩ =
      (⟨[("org_1", ⟨10, 10, 0⟩)], [⟨some "multiple", 0, "error"⟩]⟩,
       .serverError "Failed to fetch search results")
    ∧ failoverNet "https://instance-b" = .ok ⟨[], 0⟩
    ∧ (failoverRegistry.filter
        (fun i => i.isActive && i.healthStatus == "healthy")).length = 3 := by decide

end SerpBackend

